import Mathlib

/-!
Verification of the Flappy-Birb game core (src/state.ts, src/util.ts,
src/types.ts, src/main.ts) against its natural-language specification.

Numbers: JavaScript `number` values are modelled as exact rationals (`ℚ`).
The NaN-sensitive code paths (CSV parsing via `Number(...)` and the
comparisons downstream of it) are modelled separately over `Option ℚ`,
where `none` plays the role of `NaN`: every JS comparison involving NaN
is `false`, and NaN propagates through arithmetic.
-/

namespace FlappyBirb

/-! ### Constants (src/types.ts) -/

def CANVAS_WIDTH : ℚ := 600

def CANVAS_HEIGHT : ℚ := 400

def BIRB_WIDTH : ℚ := 42

def BIRB_HEIGHT : ℚ := 30

def PIPE_WIDTH : ℚ := 50

def TICK_RATE_MS : ℚ := 16

def GRAVITY : ℚ := 2/5

def PIPE_SPEED : ℚ := 3

def STRENGTH : ℚ := -7

def SEED : ℚ := 1234

/-! ### Data model (src/types.ts) -/

structure Bird where
  verticalPosition : ℚ
  verticalVelocity : ℚ
deriving DecidableEq

structure Pipe where
  horizontalPosition : ℚ
  gapY : ℚ
  gapHeight : ℚ
  time : ℚ
  collided : Bool
  passed : Bool
deriving DecidableEq

structure State where
  bird : Bird
  pipes : List Pipe
  score : ℚ
  lives : ℚ
  gameEnd : Bool
  gameTime : ℚ
  gameStarted : Bool
deriving DecidableEq

structure PipeProcessResult where
  pipe : Pipe
  hitPipe : Bool
  scoreIncrease : ℚ
  velocityAdjustment : ℚ
deriving DecidableEq

def initialBird : Bird :=
  { verticalPosition := CANVAS_HEIGHT / 2, verticalVelocity := 0 }

def initialState : State :=
  { bird := initialBird, pipes := [], score := 0, lives := 3,
    gameEnd := false, gameTime := 0, gameStarted := false }

/-! ### JS numeric primitives

JavaScript `x % m` is the remainder after division truncated toward zero
(the result carries the sign of the dividend); operands need not be
integers. -/

def jsTrunc (q : ℚ) : ℤ := if 0 ≤ q then ⌊q⌋ else ⌈q⌉

def jsMod (n d : ℚ) : ℚ := n - d * jsTrunc (n / d)

/-! ### RNG (src/util.ts, class RNG) -/

namespace RNG

def m : ℚ := 2147483648

def a : ℚ := 1103515245

def c : ℚ := 12345

def hash (seed : ℚ) : ℚ := jsMod (a * seed + c) m

def scale (h : ℚ) : ℚ := 2 * h / (m - 1) - 1

end RNG

/-! ### createRandomVelocity (src/util.ts) -/

def createRandomVelocity (velocity : ℚ) (hitTop hitBottom hasCollision : Bool) : ℚ :=
  let h := RNG.hash (SEED + velocity)
  let scaled := RNG.scale h
  if hasCollision then
    if hitTop then 5 + ((scaled + 1) / 2) * 5
    else if hitBottom then -10 + ((scaled + 1) / 2) * 5
    else 0
  else 0

/-! ### processPipe (src/util.ts) -/

def processPipe (pipe : Pipe) (birdX birdVelocity birdPosition : ℚ) :
    PipeProcessResult :=
  let inXRange : Bool :=
    decide (birdX + BIRB_WIDTH / 2 > pipe.horizontalPosition) &&
    decide (birdX - BIRB_WIDTH / 2 < pipe.horizontalPosition + PIPE_WIDTH)
  let inYGap : Bool :=
    decide (birdPosition > pipe.gapY - pipe.gapHeight / 2) &&
    decide (birdPosition < pipe.gapY + pipe.gapHeight / 2)
  -- `pipe.collided ?? false` / `pipe.passed ?? false`: the fields are
  -- non-nullable booleans, so the `?? false` fallback is the identity.
  let collided := pipe.collided
  let passed := pipe.passed
  let hasCollision := !collided && inXRange && !inYGap
  let newCollided := collided || hasCollision
  let hitTop := hasCollision && decide (birdPosition < pipe.gapY)
  let hitBottom := hasCollision && decide (birdPosition ≥ pipe.gapY)
  let velocityAdjustment :=
    createRandomVelocity birdVelocity hitTop hitBottom hasCollision
  let hasPassed :=
    !passed && !newCollided &&
    decide (pipe.horizontalPosition + PIPE_WIDTH < birdX)
  let newPassed := passed || hasPassed
  let scoreIncrease : ℚ := if hasPassed then 1 else 0
  { pipe :=
      { pipe with
        collided := newCollided
        passed := newPassed
        horizontalPosition := pipe.horizontalPosition - PIPE_SPEED }
    hitPipe := hasCollision
    scoreIncrease := scoreIncrease
    velocityAdjustment := velocityAdjustment }

/-! ### aggregatePipeResults (src/util.ts) -/

structure AggregateResult where
  hitPipe : Bool
  totalScoreIncrease : ℚ
  pipeVelocityAdjustment : ℚ
deriving DecidableEq

def aggregatePipeResults (results : List PipeProcessResult) : AggregateResult :=
  { hitPipe := results.any (fun result => result.hitPipe)
    totalScoreIncrease :=
      results.foldl (fun sum result => sum + result.scoreIncrease) 0
    pipeVelocityAdjustment :=
      results.foldl (fun sum result => sum + result.velocityAdjustment) 0 }

/-! ### tick (src/state.ts)

The body of `tick` is decomposed into named definitions, one per
intermediate constant of the source, so the theorems can speak about the
internal quantities (boundary flags, per-pipe results, adjustments). -/

def birdX : ℚ := CANVAS_WIDTH * (3/10)

def tickNewVelocity (s : State) : ℚ := s.bird.verticalVelocity + GRAVITY

def tickNewPosition (s : State) : ℚ := s.bird.verticalPosition + tickNewVelocity s

def tickPipeResults (s : State) : List PipeProcessResult :=
  s.pipes.map (fun pipe => processPipe pipe birdX (tickNewVelocity s) (tickNewPosition s))

def tickNewPipes (s : State) : List Pipe :=
  ((tickPipeResults s).map (fun result => result.pipe)).filter
    (fun p => decide (p.horizontalPosition + PIPE_WIDTH > 0))

def tickHitTop (s : State) : Bool := decide (tickNewPosition s ≤ 0)

def tickHitBottom (s : State) : Bool := decide (tickNewPosition s ≥ CANVAS_HEIGHT)

def tickHasCollision (s : State) : Bool := tickHitTop s || tickHitBottom s

def tickBoundaryAdjustment (s : State) : ℚ :=
  createRandomVelocity (tickNewVelocity s) (tickHitTop s) (tickHitBottom s)
    (tickHasCollision s)

def tickLoseLife (s : State) : Bool :=
  (tickHitTop s || tickHitBottom s) || (aggregatePipeResults (tickPipeResults s)).hitPipe

def tick (s : State) : State :=
  if s.gameEnd then s
  else
    let agg := aggregatePipeResults (tickPipeResults s)
    let newLives := if tickLoseLife s then s.lives - 1 else s.lives
    let gameEnd :=
      decide (newLives ≤ 0) || (s.gameStarted && decide ((tickNewPipes s).length = 0))
    let finalVelocity :=
      tickNewVelocity s + agg.pipeVelocityAdjustment + tickBoundaryAdjustment s
    let finalPosition := s.bird.verticalPosition + finalVelocity
    { s with
      bird := { verticalVelocity := finalVelocity, verticalPosition := finalPosition }
      pipes := tickNewPipes s
      lives := newLives
      gameEnd := gameEnd
      score := s.score + agg.totalScoreIncrease
      gameTime := s.gameTime + TICK_RATE_MS }

/-! ### jump (src/state.ts) -/

def jump (s : State) : State :=
  { s with bird := { s.bird with verticalVelocity := STRENGTH } }

/-! ### createGhost (src/main.ts)

`interval(TICK_RATE_MS).pipe(take(path.length), map(i => i < path.length - 1
? path[i] : null))` — the finite sequence of emissions is modelled as a
list, one entry per tick, `none` standing for the `null` sentinel. -/

def createGhost (path : List ℚ) : List (Option ℚ) :=
  (List.range path.length).map
    (fun i => if i < path.length - 1 then some (path.getD i 0) else none)

/-! ### NaN-aware layer

`JSNum` is a JavaScript number that may be `NaN` (`none`).  Arithmetic
propagates `NaN`; every comparison with a `NaN` operand is `false`.  The
code paths downstream of `Number(...)` coercion — `parsePipeLine` and the
comparisons inside `processPipe` — are re-traced over `JSNum` so that the
behaviour on malformed CSV records is captured faithfully. -/

def JSNum := Option ℚ
deriving DecidableEq

namespace JSNum

def nan : JSNum := none

def num (q : ℚ) : JSNum := some q

def add : JSNum → JSNum → JSNum
  | some x, some y => some (x + y)
  | _, _ => none

def sub : JSNum → JSNum → JSNum
  | some x, some y => some (x - y)
  | _, _ => none

def mul : JSNum → JSNum → JSNum
  | some x, some y => some (x * y)
  | _, _ => none

/-- Division by a nonzero rational constant (the only divisions performed
by the modelled code have constant nonzero divisors, so the JS
`x / 0 = Infinity` case never arises). -/
def divC (x : JSNum) (d : ℚ) : JSNum := x.map (fun q => q / d)

/-- JS `%` against a constant divisor; `NaN % d = NaN`. -/
def modC (x : JSNum) (d : ℚ) : JSNum := x.map (fun q => jsMod q d)

/-- JS `<`: false whenever an operand is NaN. -/
def lt : JSNum → JSNum → Bool
  | some x, some y => decide (x < y)
  | _, _ => false

/-- JS `<=`: false whenever an operand is NaN. -/
def le : JSNum → JSNum → Bool
  | some x, some y => decide (x ≤ y)
  | _, _ => false

/-- JS `>` (i.e. `y < x`). -/
def gt (x y : JSNum) : Bool := lt y x

/-- JS `>=` (i.e. `y <= x`). -/
def ge (x y : JSNum) : Bool := le y x

end JSNum

namespace JS

/-- `RNG.hash` over possibly-NaN input. -/
def hash (seed : JSNum) : JSNum :=
  JSNum.modC (JSNum.add (JSNum.mul (JSNum.num RNG.a) seed) (JSNum.num RNG.c)) RNG.m

/-- `RNG.scale` over possibly-NaN input. -/
def scale (h : JSNum) : JSNum :=
  JSNum.sub (JSNum.divC (JSNum.mul (JSNum.num 2) h) (RNG.m - 1)) (JSNum.num 1)

/-- `createRandomVelocity` over possibly-NaN velocity. -/
def createRandomVelocity (velocity : JSNum) (hitTop hitBottom hasCollision : Bool) :
    JSNum :=
  let h := hash (JSNum.add (JSNum.num SEED) velocity)
  let scaled := scale h
  if hasCollision then
    if hitTop then
      JSNum.add (JSNum.num 5)
        (JSNum.mul (JSNum.divC (JSNum.add scaled (JSNum.num 1)) 2) (JSNum.num 5))
    else if hitBottom then
      JSNum.add (JSNum.num (-10))
        (JSNum.mul (JSNum.divC (JSNum.add scaled (JSNum.num 1)) 2) (JSNum.num 5))
    else JSNum.num 0
  else JSNum.num 0

/-- A `Pipe` whose numeric fields may be NaN (result of parsing a
malformed CSV record). -/
structure JSPipe where
  horizontalPosition : JSNum
  gapY : JSNum
  gapHeight : JSNum
  time : JSNum
  collided : Bool
  passed : Bool
deriving DecidableEq

structure JSPipeProcessResult where
  pipe : JSPipe
  hitPipe : Bool
  scoreIncrease : ℚ
  velocityAdjustment : JSNum
deriving DecidableEq

/-- Horizontal overlap test of `processPipe`, over possibly-NaN numbers. -/
def inXRange (pipe : JSPipe) (birdX : JSNum) : Bool :=
  JSNum.gt (JSNum.add birdX (JSNum.num (BIRB_WIDTH / 2))) pipe.horizontalPosition &&
  JSNum.lt (JSNum.sub birdX (JSNum.num (BIRB_WIDTH / 2)))
    (JSNum.add pipe.horizontalPosition (JSNum.num PIPE_WIDTH))

/-- Vertical gap test of `processPipe`, over possibly-NaN numbers. -/
def inYGap (pipe : JSPipe) (birdPosition : JSNum) : Bool :=
  JSNum.gt birdPosition (JSNum.sub pipe.gapY (JSNum.divC pipe.gapHeight 2)) &&
  JSNum.lt birdPosition (JSNum.add pipe.gapY (JSNum.divC pipe.gapHeight 2))

/-- `processPipe` over possibly-NaN numbers (same line-by-line structure
as the rational version). -/
def processPipe (pipe : JSPipe) (birdX birdVelocity birdPosition : JSNum) :
    JSPipeProcessResult :=
  let collided := pipe.collided
  let passed := pipe.passed
  let hasCollision := !collided && inXRange pipe birdX && !(inYGap pipe birdPosition)
  let newCollided := collided || hasCollision
  let hitTop := hasCollision && JSNum.lt birdPosition pipe.gapY
  let hitBottom := hasCollision && JSNum.ge birdPosition pipe.gapY
  let velocityAdjustment :=
    createRandomVelocity birdVelocity hitTop hitBottom hasCollision
  let hasPassed :=
    !passed && !newCollided &&
    JSNum.lt (JSNum.add pipe.horizontalPosition (JSNum.num PIPE_WIDTH)) birdX
  let newPassed := passed || hasPassed
  let scoreIncrease : ℚ := if hasPassed then 1 else 0
  { pipe :=
      { pipe with
        collided := newCollided
        passed := newPassed
        horizontalPosition := JSNum.sub pipe.horizontalPosition (JSNum.num PIPE_SPEED) }
    hitPipe := hasCollision
    scoreIncrease := scoreIncrease
    velocityAdjustment := velocityAdjustment }

/-- `parsePipeLine` (src/util.ts).  `line.split(",").map(Number)` is
modelled by passing in the three coerced values; a non-numeric token
coerces to `NaN` (`JSNum.nan`). -/
def parsePipeLine (gap_y_frac gap_height_frac time_sec : JSNum) : JSPipe :=
  { horizontalPosition := JSNum.num CANVAS_WIDTH
    gapY := JSNum.mul gap_y_frac (JSNum.num CANVAS_HEIGHT)
    gapHeight := JSNum.mul gap_height_frac (JSNum.num CANVAS_HEIGHT)
    time := JSNum.mul time_sec (JSNum.num 1000)
    collided := false
    passed := false }

end JS

/-! ### Concrete instances used in counterexamples and witnesses -/

/-- A terminal state (game over, lives exhausted) whose bird velocity is
not the jump strength. -/
def endedState : State :=
  { bird := { verticalPosition := 100, verticalVelocity := 0 }, pipes := [],
    score := 2, lives := 0, gameEnd := true, gameTime := 160, gameStarted := true }

/-- The spec's boundary example: bird at the top edge (position 0) with
verticalVelocity `+2` (downward, the positive direction), no pipes. -/
def topEdgeState : State :=
  { bird := { verticalPosition := 0, verticalVelocity := 2 }, pipes := [],
    score := 0, lives := 3, gameEnd := false, gameTime := 0, gameStarted := false }

/-- The boundary example with the velocity directed at the boundary:
bird at the top edge moving upward (verticalVelocity `-2`). -/
def topEdgeStateUp : State :=
  { bird := { verticalPosition := 0, verticalVelocity := -2 }, pipes := [],
    score := 0, lives := 3, gameEnd := false, gameTime := 0, gameStarted := false }

/-- A rational velocity driving the LCG dividend negative: the JS `%`
then returns a negative hash, `scale` leaves `[-1,1]`, and the knockback
leaves `[5,10]`. -/
def badVelocity : ℚ := (-(2^30) - 12345) / 1103515245 - 1234

/-- The pipe produced by `parsePipeLine` from the record `"abc,0.5,1"`:
the non-numeric first token coerces to NaN. -/
def nanPipe : JS.JSPipe :=
  JS.parsePipeLine JSNum.nan (JSNum.num (1/2)) (JSNum.num 1)

/-- The same NaN pipe after its horizontal position has advanced to 100
(as happens over the course of a game). -/
def nanPipeMoved : JS.JSPipe := { nanPipe with horizontalPosition := JSNum.num 100 }

/-- A pipe positioned so that the bird at `(birdX, 0)` overlaps it
horizontally and sits outside its gap: a collision fires. -/
def collidingPipe : Pipe :=
  { horizontalPosition := 180, gapY := 200, gapHeight := 100, time := 0,
    collided := false, passed := false }

/-- A non-ended state with one pipe, used to witness the tick theorems. -/
def witnessState : State :=
  { bird := { verticalPosition := 200, verticalVelocity := 0 },
    pipes := [{ horizontalPosition := 400, gapY := 200, gapHeight := 100,
                time := 0, collided := false, passed := false }],
    score := 0, lives := 3, gameEnd := false, gameTime := 0, gameStarted := true }

/-- A non-ended state containing a pipe that scores on this tick and is
simultaneously removed from the retained list (its advanced trailing edge
leaves the viewport): trailing edge `-47 + 50 = 3 > 0` before the move,
`-50 + 50 = 0` after. -/
def removalState : State :=
  { bird := { verticalPosition := 200, verticalVelocity := 0 },
    pipes := [{ horizontalPosition := -47, gapY := 200, gapHeight := 100,
                time := 0, collided := false, passed := false }],
    score := 0, lives := 3, gameEnd := false, gameTime := 0, gameStarted := true }

/-! ### Helper lemmas -/

theorem any_map_general {α β : Type} (l : List α) (f : α → β) (p : β → Bool) :
    (l.map f).any p = l.any (fun a => p (f a)) := by
  induction l with
  | nil => rfl
  | cons a l ih => simp [ih]

theorem processPipe_scoreIncrease_nonneg (p : Pipe) (bx v bp : ℚ) :
    0 ≤ (processPipe p bx v bp).scoreIncrease := by
  simp only [processPipe]
  split <;> norm_num

theorem foldl_scoreIncrease_nonneg (l : List PipeProcessResult)
    (hl : ∀ r ∈ l, 0 ≤ r.scoreIncrease) :
    ∀ init : ℚ, 0 ≤ init →
      0 ≤ l.foldl (fun sum result => sum + result.scoreIncrease) init := by
  induction l with
  | nil => intro init h0; simpa using h0
  | cons r l ih =>
    intro init h0
    simp only [List.foldl_cons]
    refine ih (fun x hx => hl x (List.mem_cons_of_mem r hx)) _ ?_
    have hr := hl r (List.mem_cons_self r l)
    linarith

theorem tickPipeResults_scoreIncrease_nonneg (s : State) :
    ∀ r ∈ tickPipeResults s, 0 ≤ r.scoreIncrease := by
  intro r hr
  simp only [tickPipeResults, List.mem_map] at hr
  obtain ⟨p, _, rfl⟩ := hr
  exact processPipe_scoreIncrease_nonneg p birdX (tickNewVelocity s) (tickNewPosition s)

/-- C6: a pipe that collides on this evaluation cannot also score on it:
when `hitPipe` fires, `scoreIncrease` is 0 and the `passed` flag is left
exactly as it was, so at most one of `collided`/`passed` becomes true as
a result of any single evaluation. -/
theorem processPipe_collision_excludes_score (p : Pipe) (bx v bp : ℚ)
    (h : (processPipe p bx v bp).hitPipe = true) :
    (processPipe p bx v bp).scoreIncrease = 0 ∧
    (processPipe p bx v bp).pipe.passed = p.passed := by
  simp only [processPipe] at h ⊢
  rw [h]
  simp

/-- Witness for `processPipe_collision_excludes_score` at a concrete
colliding pipe. -/
theorem processPipe_collision_excludes_score_witness :
    (processPipe collidingPipe 180 0 0).hitPipe = true ∧
    (processPipe collidingPipe 180 0 0).scoreIncrease = 0 ∧
    (processPipe collidingPipe 180 0 0).pipe.passed = collidingPipe.passed :=
  ⟨by with_unfolding_all decide,
    processPipe_collision_excludes_score collidingPipe 180 0 0
      (by with_unfolding_all decide)⟩

/-- C7: on a non-ended state, the post-tick bird velocity is the
gravity-integrated velocity plus the aggregated pipe adjustment plus the
boundary adjustment, and the post-tick position is the original pre-tick
position (not the intermediate integrated one) plus that final velocity. -/
theorem tick_final_velocity_position (s : State) (h : s.gameEnd = false) :
    (tick s).bird.verticalVelocity =
      (s.bird.verticalVelocity + GRAVITY) +
        (aggregatePipeResults (tickPipeResults s)).pipeVelocityAdjustment +
        tickBoundaryAdjustment s ∧
    (tick s).bird.verticalPosition =
      s.bird.verticalPosition + (tick s).bird.verticalVelocity := by
  simp [tick, h, tickNewVelocity]

/-- Witness for `tick_final_velocity_position` at a concrete non-ended
state. -/
theorem tick_final_velocity_position_witness :
    witnessState.gameEnd = false ∧
    (tick witnessState).bird.verticalVelocity =
      (witnessState.bird.verticalVelocity + GRAVITY) +
        (aggregatePipeResults (tickPipeResults witnessState)).pipeVelocityAdjustment +
        tickBoundaryAdjustment witnessState ∧
    (tick witnessState).bird.verticalPosition =
      witnessState.bird.verticalPosition + (tick witnessState).bird.verticalVelocity :=
  ⟨rfl, tick_final_velocity_position witnessState rfl⟩

/-- C8: on a non-ended state, `lives` decrements by exactly 1 when a
boundary edge is hit or any pipe collision fires this tick (no matter how
many pipes collide), and is unchanged otherwise. -/
theorem tick_lives_decrement (s : State) (h : s.gameEnd = false) :
    (tick s).lives =
      if (tickHitTop s || tickHitBottom s) ||
          (tickPipeResults s).any (fun result => result.hitPipe)
      then s.lives - 1 else s.lives := by
  simp only [tick, h, Bool.false_eq_true, if_false, tickLoseLife, aggregatePipeResults]

/-- Witness for `tick_lives_decrement` at a concrete non-ended state. -/
theorem tick_lives_decrement_witness :
    witnessState.gameEnd = false ∧
    (tick witnessState).lives =
      (if (tickHitTop witnessState || tickHitBottom witnessState) ||
          (tickPipeResults witnessState).any (fun result => result.hitPipe)
       then witnessState.lives - 1 else witnessState.lives) :=
  ⟨rfl, tick_lives_decrement witnessState rfl⟩

/-- C9: across both reducers, `lives` is non-increasing and `score` is
non-decreasing. -/
theorem reducers_monotone (s : State) :
    (tick s).lives ≤ s.lives ∧ s.score ≤ (tick s).score ∧
    (jump s).lives ≤ s.lives ∧ s.score ≤ (jump s).score := by
  by_cases h : s.gameEnd
  · refine ⟨?_, ?_, le_refl _, le_refl _⟩ <;> simp [tick, h]
  · have hscore : 0 ≤ (aggregatePipeResults (tickPipeResults s)).totalScoreIncrease :=
      foldl_scoreIncrease_nonneg _ (tickPipeResults_scoreIncrease_nonneg s) 0 le_rfl
    refine ⟨?_, ?_, le_refl _, le_refl _⟩
    · simp only [tick, h, Bool.false_eq_true, if_false]
      split <;> linarith
    · simp only [tick, h, Bool.false_eq_true, if_false]
      linarith

/-- C10: the aggregated score increase, any-hit flag and pipe velocity
adjustment of a tick are computed over every pipe present at the start of
the tick (`s.pipes`), with no filtering: a pipe whose advanced trailing
edge leaves the viewport this tick still contributes its score, collision
and knockback to this tick's totals. -/
theorem tick_aggregates_over_all_pipes (s : State) (h : s.gameEnd = false) :
    (tick s).score = s.score +
      s.pipes.foldl
        (fun sum p =>
          sum + (processPipe p birdX (tickNewVelocity s) (tickNewPosition s)).scoreIncrease)
        0 ∧
    (tick s).lives =
      (if (tickHitTop s || tickHitBottom s) ||
          s.pipes.any
            (fun p => (processPipe p birdX (tickNewVelocity s) (tickNewPosition s)).hitPipe)
       then s.lives - 1 else s.lives) ∧
    (tick s).bird.verticalVelocity =
      tickNewVelocity s +
        s.pipes.foldl
          (fun sum p =>
            sum + (processPipe p birdX (tickNewVelocity s) (tickNewPosition s)).velocityAdjustment)
          0 +
        tickBoundaryAdjustment s := by
  refine ⟨?_, ?_, ?_⟩ <;>
    simp only [tick, h, Bool.false_eq_true, if_false, tickLoseLife,
      aggregatePipeResults, tickPipeResults, List.foldl_map, any_map_general]

/-- Witness for `tick_aggregates_over_all_pipes` at a state whose single
pipe both scores and is removed from the retained list on the same tick. -/
theorem tick_aggregates_over_all_pipes_witness :
    removalState.gameEnd = false ∧
    (tick removalState).score = removalState.score +
      removalState.pipes.foldl
        (fun sum p =>
          sum + (processPipe p birdX (tickNewVelocity removalState)
                  (tickNewPosition removalState)).scoreIncrease)
        0 ∧
    (tick removalState).score = 1 ∧ (tick removalState).pipes = [] :=
  ⟨rfl, (tick_aggregates_over_all_pipes removalState rfl).1,
    by with_unfolding_all decide, by with_unfolding_all decide⟩

/-- C1 counterexample: `jump` does not check `gameEnd`, so applying it to
an ended state whose bird velocity differs from the jump strength yields
a different state. -/
theorem jump_mutates_ended_state :
    endedState.gameEnd = true ∧ jump endedState ≠ endedState :=
  ⟨rfl, by with_unfolding_all decide⟩

/-- C1 (amended): once `gameEnd` is true, `tick` returns the state
unchanged; `jump`, however, still overwrites `bird.verticalVelocity` with
the jump strength and leaves every other field (including `gameEnd`
itself) unchanged, so the state is immutable under `tick` but not under
`jump`. -/
theorem gameEnd_terminal_amended (s : State) (h : s.gameEnd = true) :
    tick s = s ∧ (jump s).gameEnd = true ∧ (jump s).score = s.score ∧
    (jump s).lives = s.lives ∧ (jump s).pipes = s.pipes ∧
    (jump s).gameTime = s.gameTime ∧ (jump s).gameStarted = s.gameStarted ∧
    (jump s).bird.verticalPosition = s.bird.verticalPosition ∧
    (jump s).bird.verticalVelocity = STRENGTH := by
  refine ⟨by simp [tick, h], by simp [jump, h], rfl, rfl, rfl, rfl, rfl, rfl, rfl⟩

/-- Witness for `gameEnd_terminal_amended` at a concrete ended state. -/
theorem gameEnd_terminal_amended_witness :
    endedState.gameEnd = true ∧ tick endedState = endedState ∧
    (jump endedState).bird.verticalVelocity = STRENGTH :=
  ⟨rfl, (gameEnd_terminal_amended endedState rfl).1,
    (gameEnd_terminal_amended endedState rfl).2.2.2.2.2.2.2.2⟩

/-! Helper lemmas about NaN propagation. -/

theorem JSNum_sub_nan_left (x : JSNum) : JSNum.sub JSNum.nan x = JSNum.nan := by
  cases x <;> rfl

theorem JSNum_lt_nan_left (x : JSNum) : JSNum.lt JSNum.nan x = false := by
  cases x <;> rfl

theorem JSNum_lt_nan_right (x : JSNum) : JSNum.lt x JSNum.nan = false := by
  cases x <;> rfl

theorem JSNum_le_nan_left (x : JSNum) : JSNum.le JSNum.nan x = false := by
  cases x <;> rfl

/-- C2 counterexample: the pipe parsed from the record `"abc,0.5,1"` has a
NaN `gapY`, yet `processPipe` reports a collision on it (the NaN gap test
is always false, so the bird is never "inside the gap"), and, once the
pipe has advanced past the bird without colliding, it even scores. -/
theorem nan_pipe_not_inert :
    nanPipe.gapY = JSNum.nan ∧
    (JS.processPipe nanPipe (JSNum.num 630) (JSNum.num 0) (JSNum.num 100)).hitPipe
      = true ∧
    (JS.processPipe nanPipeMoved (JSNum.num 180) (JSNum.num 0)
        (JSNum.num 100)).scoreIncrease = 1 := by
  refine ⟨rfl, ?_, ?_⟩ <;> with_unfolding_all decide

/-- C2 (amended): a non-numeric first field parses to a NaN `gapY` while
`horizontalPosition` stays at the numeric canvas width; for a pipe with
NaN `gapY`, `processPipe` never registers the bird inside the gap and its
velocity adjustment is always 0, but the pipe is not inert: a collision
fires exactly when the bird overlaps it horizontally and it has not yet
collided. -/
theorem nan_gapY_pipe_behaviour (gh t bx v bp : JSNum) (p : JS.JSPipe)
    (hg : p.gapY = JSNum.nan) :
    (JS.parsePipeLine JSNum.nan gh t).gapY = JSNum.nan ∧
    (JS.parsePipeLine JSNum.nan gh t).horizontalPosition = JSNum.num CANVAS_WIDTH ∧
    JS.inYGap p bp = false ∧
    (JS.processPipe p bx v bp).velocityAdjustment = JSNum.num 0 ∧
    (JS.processPipe p bx v bp).hitPipe = (!p.collided && JS.inXRange p bx) := by
  have hy : JS.inYGap p bp = false := by
    simp [JS.inYGap, hg, JSNum_sub_nan_left, JSNum.gt, JSNum_lt_nan_left]
  refine ⟨rfl, rfl, hy, ?_, ?_⟩
  · simp only [JS.processPipe, hg, hy, JSNum_lt_nan_right, JSNum.ge, JSNum_le_nan_left,
      Bool.and_false, Bool.not_false, Bool.and_true, JS.createRandomVelocity]
    split <;> rfl
  · simp [JS.processPipe, hy]

/-- Witness for `nan_gapY_pipe_behaviour` at the pipe parsed from
`"abc,0.5,1"`. -/
theorem nan_gapY_pipe_behaviour_witness :
    nanPipe.gapY = JSNum.nan ∧
    (JS.processPipe nanPipe (JSNum.num 630) (JSNum.num 0)
        (JSNum.num 100)).velocityAdjustment = JSNum.num 0 ∧
    (JS.processPipe nanPipe (JSNum.num 630) (JSNum.num 0)
        (JSNum.num 100)).hitPipe =
      (!nanPipe.collided && JS.inXRange nanPipe (JSNum.num 630)) :=
  ⟨rfl,
    (nan_gapY_pipe_behaviour (JSNum.num (1/2)) (JSNum.num 1) (JSNum.num 630)
      (JSNum.num 0) (JSNum.num 100) nanPipe rfl).2.2.2.1,
    (nan_gapY_pipe_behaviour (JSNum.num (1/2)) (JSNum.num 1) (JSNum.num 630)
      (JSNum.num 0) (JSNum.num 100) nanPipe rfl).2.2.2.2⟩

/-- C3 counterexample: at the (contrived but legal) rational velocity
`badVelocity` the LCG dividend is negative, the JS remainder is negative,
`scale` leaves `[-1, 1]`, and the top-hit knockback falls strictly below
5 — outside the documented `[5, 10]` range. -/
theorem createRandomVelocity_escapes_range :
    createRandomVelocity badVelocity true false true < 5 := by
  with_unfolding_all decide

/-- C3 (amended): whenever the hashed seed lands in `[0, m-1]` — which
holds for every velocity making the LCG dividend a nonnegative integer,
in particular every velocity the game reaches from integral state — the
knockback is in `[5, 10]` on a top hit, in `[-10, -5]` on a bottom hit,
and exactly 0 when there is no collision. -/
theorem createRandomVelocity_ranges (v : ℚ) (hb : Bool)
    (h0 : 0 ≤ RNG.hash (SEED + v)) (h1 : RNG.hash (SEED + v) ≤ RNG.m - 1) :
    (5 ≤ createRandomVelocity v true hb true ∧
      createRandomVelocity v true hb true ≤ 10) ∧
    (-10 ≤ createRandomVelocity v false true true ∧
      createRandomVelocity v false true true ≤ -5) ∧
    (∀ ht hb2 : Bool, createRandomVelocity v ht hb2 false = 0) := by
  have hm : (0:ℚ) < RNG.m - 1 := by norm_num [RNG.m]
  have hd0 : 0 ≤ RNG.hash (SEED + v) / (RNG.m - 1) := div_nonneg h0 hm.le
  have hd1 : RNG.hash (SEED + v) / (RNG.m - 1) ≤ 1 := (div_le_one hm).mpr h1
  have htop : createRandomVelocity v true hb true =
      5 + 5 * (RNG.hash (SEED + v) / (RNG.m - 1)) := by
    simp only [createRandomVelocity, RNG.scale, if_true]
    ring
  have hbot : createRandomVelocity v false true true =
      -10 + 5 * (RNG.hash (SEED + v) / (RNG.m - 1)) := by
    simp only [createRandomVelocity, RNG.scale, if_true, if_false, Bool.false_eq_true]
    ring
  refine ⟨⟨?_, ?_⟩, ⟨?_, ?_⟩, fun ht hb2 => by simp [createRandomVelocity]⟩
  · rw [htop]; linarith
  · rw [htop]; linarith
  · rw [hbot]; linarith
  · rw [hbot]; linarith

/-- Witness for `createRandomVelocity_ranges` at velocity 0. -/
theorem createRandomVelocity_ranges_witness :
    (0 ≤ RNG.hash (SEED + 0) ∧ RNG.hash (SEED + 0) ≤ RNG.m - 1) ∧
    5 ≤ createRandomVelocity 0 true false true ∧
    createRandomVelocity 0 false true true ≤ -5 :=
  ⟨⟨by with_unfolding_all decide, by with_unfolding_all decide⟩,
    (createRandomVelocity_ranges 0 false (by with_unfolding_all decide)
      (by with_unfolding_all decide)).1.1,
    (createRandomVelocity_ranges 0 false (by with_unfolding_all decide)
      (by with_unfolding_all decide)).2.1.2⟩

/-- C4 counterexample: with the spec's literal inputs — bird at position
0 with verticalVelocity `+2` (downward) — the gravity-integrated position
is `2.4`, strictly inside the canvas: no boundary collision is flagged,
`lives` is unchanged, and the boundary velocity delta is 0. -/
theorem boundary_example_fails :
    tickHasCollision topEdgeState = false ∧
    (tick topEdgeState).lives = topEdgeState.lives ∧
    tickBoundaryAdjustment topEdgeState = 0 := by
  refine ⟨?_, ?_, ?_⟩ <;> with_unfolding_all decide

/-- C4 (amended): with the velocity directed at the boundary
(verticalVelocity `-2`), one tick flags a top-boundary collision,
decrements `lives` by exactly 1, and adds a strictly positive boundary
velocity delta lying in the documented `[5, 10]` range. -/
theorem boundary_example_amended :
    tickHitTop topEdgeStateUp = true ∧
    (tick topEdgeStateUp).lives = topEdgeStateUp.lives - 1 ∧
    0 < tickBoundaryAdjustment topEdgeStateUp ∧
    5 ≤ tickBoundaryAdjustment topEdgeStateUp ∧
    tickBoundaryAdjustment topEdgeStateUp ≤ 10 ∧
    (tick topEdgeStateUp).bird.verticalVelocity =
      tickNewVelocity topEdgeStateUp + tickBoundaryAdjustment topEdgeStateUp := by
  have hv : (tick topEdgeStateUp).bird.verticalVelocity =
      tickNewVelocity topEdgeStateUp +
        (aggregatePipeResults (tickPipeResults topEdgeStateUp)).pipeVelocityAdjustment +
        tickBoundaryAdjustment topEdgeStateUp := by
    have hend : topEdgeStateUp.gameEnd = false := rfl
    simp [tick, hend, tickNewVelocity]
  have hz : (aggregatePipeResults (tickPipeResults topEdgeStateUp)).pipeVelocityAdjustment
      = 0 := rfl
  refine ⟨?_, ?_, ?_, ?_, ?_, ?_⟩
  · with_unfolding_all decide
  · with_unfolding_all decide
  · with_unfolding_all decide
  · with_unfolding_all decide
  · with_unfolding_all decide
  · rw [hv, hz]; ring

/-- C5 counterexample: for the recorded path `[5]` (length 1) the ghost
emits a single `null` marker and never the recorded position — not one
position followed by the marker. -/
theorem ghost_replay_counterexample :
    createGhost [5] = [none] ∧ createGhost [5] ≠ List.map some [5] ++ [none] := by
  refine ⟨?_, ?_⟩ <;> with_unfolding_all decide

/-- C5 (amended): a recorded path of length N produces exactly N
emissions: position i at tick i for each i < N − 1, the absent (`null`)
marker at tick N − 1 (the final recorded position is never replayed), and
nothing at or after tick N; an empty recording emits nothing at all. -/
theorem createGhost_emissions (path : List ℚ) :
    (createGhost path).length = path.length ∧
    ∀ i : ℕ, (createGhost path).getD i none =
      if i < path.length - 1 then some (path.getD i 0) else none := by
  constructor
  · simp [createGhost]
  · intro i
    by_cases h : i < path.length
    · simp [createGhost, List.getD_eq_getElem?_getD, List.getElem?_map,
        List.getElem?_range h]
    · have h1 : ¬ i < path.length - 1 :=
        fun hc => h (lt_of_lt_of_le hc (Nat.sub_le _ _))
      have h2 : (List.range path.length)[i]? = none := by
        simp [List.getElem?_eq_none, List.length_range, Nat.le_of_not_lt h]
      simp [createGhost, List.getD_eq_getElem?_getD, List.getElem?_map, h2, h1]

end FlappyBirb
